import Mathlib

/-!
Shallow embedding of the bitex GDAX and Lykke exchange interfaces
(bitex/interface/gdax.py, bitex/interface/lykke.py) and the Lykke REST
signing backend (bitex/api/REST/lykke.py), together with theorems checking
the documented design against this code.

Network effects are made explicit: every interface method returns, besides
its Python-level result (a value or a raised exception), the ordered list
of HTTP requests it issued.  The HTTP transport is a parameter
(`Transport`): a function from a request to the response the exchange
returns for it.  Response formatting (the `format_with` decorators) only
post-processes the transport's response and never affects which requests
are issued or which exceptions the methods raise before the transport runs,
so it is not modelled.
-/

namespace Bitex

/-- Python-level values as they appear in keyword-argument dictionaries:
`None`, strings and integers. -/
inductive Val where
  | none
  | str (s : String)
  | int (n : Int)
  deriving Repr, DecidableEq

/-- Keyword-argument dictionaries, as association lists preserving insertion
order (as Python dicts do). -/
abbrev Dict := List (String × Val)

/-- Python `d.get(k)`: `Val.none` both when the key is absent and when it is
bound to `None` (the source only ever tests the result with `is None`). -/
def dictGet (d : Dict) (k : String) : Val :=
  match d.find? (fun p => p.1 == k) with
  | some p => p.2
  | Option.none => Val.none

/-- Python `d[k] = v` (also one step of `d.update`): replace the binding in
place when the key exists (dict keys are unique), append it otherwise. -/
def dictSet (d : Dict) (k : String) (v : Val) : Dict :=
  match d with
  | [] => [(k, v)]
  | p :: rest => if p.1 == k then (k, v) :: rest else p :: dictSet rest k v

/-- Python `d.update(other)`: fold `dictSet` over the other dict's bindings. -/
def dictUpdate (d other : Dict) : Dict :=
  other.foldl (fun acc p => dictSet acc p.1 p.2) d

/-- Membership of a key in a dictionary (Python `k in d`). -/
def dictContains (d : Dict) (k : String) : Bool :=
  d.any (fun p => p.1 == k)

/-- JSON payloads, the decoded bodies of exchange responses. -/
inductive Json where
  | null
  | str (s : String)
  | num (n : Int)
  | arr (elems : List Json)
  | obj (fields : List (String × Json))
  deriving Repr

/-- Python exceptions raised by the modelled code: the library's typed
errors (UnsupportedPairError, IncompleteCredentialsError) and the Python
built-ins the code can hit (NotImplementedError, IndexError, KeyError,
TypeError). -/
inductive PyErr where
  | UnsupportedPairError
  | IncompleteCredentialsError
  | NotImplementedError
  | IndexError
  | KeyError (k : String)
  | TypeError
  deriving Repr, DecidableEq

/-- Membership in the system's typed error taxonomy (ConfigurationError /
UnsupportedPairError / AuthenticationError / ExchangeError / transport
errors).  Python built-ins such as IndexError, KeyError, TypeError and
NotImplementedError are not typed errors of the taxonomy. -/
def PyErr.inTaxonomy : PyErr → Bool
  | PyErr.UnsupportedPairError => true
  | PyErr.IncompleteCredentialsError => true
  | _ => false

/-- An HTTP request as the interface layer constructs it: verb, endpoint,
query parameters (`params=` kwarg), JSON body (`json=` kwarg) and the
authentication flag. -/
structure HttpRequest where
  verb : String
  endpoint : String
  params : Dict := []
  json : Dict := []
  authenticate : Bool := false
  deriving Repr

/-- The exchange's answer to a request: a payload the response normalizer
treats as a successful result, or a payload it classifies as an
exchange-reported error.  Either way the interface method receives a
response object and does not raise. -/
inductive Response where
  | ok (body : Json)
  | exchangeError (body : Json)
  deriving Repr

/-- Python `response.json()`: the decoded body, whichever kind of payload it
carries. -/
def Response.json : Response → Json
  | Response.ok body => body
  | Response.exchangeError body => body

/-- The HTTP transport: for each issued request, the response the exchange
returns.  The embedding is parametric in it. -/
abbrev Transport := HttpRequest → Response

/-- Result of running a piece of interface code: the Python-level outcome
(value or raised exception) together with the ordered list of HTTP requests
it issued. -/
structure Eff (α : Type) where
  result : Except PyErr α
  requests : List HttpRequest

/-- Raise a Python exception: no value, no network traffic. -/
def pyRaise (e : PyErr) : Eff α := ⟨Except.error e, []⟩

/-- Sequencing of effectful code: a raised exception short-circuits (the
code after it never runs and issues no requests). -/
def Eff.andThen (x : Eff α) (f : α → Eff β) : Eff β :=
  match x.result with
  | Except.error e => ⟨Except.error e, x.requests⟩
  | Except.ok a => ⟨(f a).result, x.requests ++ (f a).requests⟩

/-- Issue one HTTP request through the transport and return its response.
Modelled from the spec: `RESTInterface.request` / `requests.request`
(bitex/interface/rest.py and the requests library, not under src/) construct
and execute exactly one HTTP call and hand its response back. -/
def send (net : Transport) (req : HttpRequest) : Eff Response :=
  ⟨Except.ok (net req), [req]⟩

/-- Modelled from the spec: the pair-validation decorator
`check_and_format_pair` (bitex/utils.py, not under src/).  Per the spec it
rejects a call whose pair is not in the exchange's fetched capability set
with `UnsupportedPairError` before any network call, and otherwise invokes
the wrapped method body with the validated pair. -/
def check_and_format_pair (supported_pairs : List String) (pair : String)
    (method : String → Eff α) : Eff α :=
  if pair ∈ supported_pairs then method pair
  else pyRaise PyErr.UnsupportedPairError

/-- Python subscript `x[k]` on a decoded JSON value: the `k` field of an
object, a `KeyError` when the object lacks it, a `TypeError` on non-objects. -/
def jsonSubscript (x : Json) (k : String) : Except PyErr Json :=
  match x with
  | Json.obj fields =>
    match fields.find? (fun p => p.1 == k) with
    | some p => Except.ok p.2
    | Option.none => Except.error (PyErr.KeyError k)
  | _ => Except.error PyErr.TypeError

/-- A Python list comprehension `[f(x) for x in xs]`: elements are produced
left to right and the first exception propagates. -/
def listComp (f : Json → Except PyErr Json) : List Json → Except PyErr (List Json)
  | [] => Except.ok []
  | x :: rest =>
    match f x with
    | Except.error e => Except.error e
    | Except.ok v =>
      match listComp f rest with
      | Except.error e => Except.error e
      | Except.ok vs => Except.ok (v :: vs)

/-- Result shape of the variadic `cancel_order` methods: a bare response
when exactly one identifier was given, a list of responses otherwise. -/
inductive CancelResult where
  | single (r : Response)
  | many (rs : List Response)
  deriving Repr

namespace GDAX

/-- The GET request `GDAX._get_supported_pairs` issues against the public
products endpoint. -/
def productsReq : HttpRequest :=
  { verb := "GET", endpoint := "https://api.gdax.com/products" }

/-- GDAX._get_supported_pairs: one GET against the products endpoint, then
the list comprehension `[x[id] for x in r]` over the decoded JSON array. -/
def _get_supported_pairs (net : Transport) : Eff (List Json) :=
  Eff.andThen (send net productsReq) (fun r =>
    match r.json with
    | Json.arr xs => ⟨listComp (fun x => jsonSubscript x "id") xs, []⟩
    | _ => ⟨Except.error PyErr.TypeError, []⟩)

/-- GDAX.ticker: GET products/(pair)/ticker with the kwargs as query
parameters, guarded by the pair-validation decorator. -/
def ticker (supported_pairs : List String) (net : Transport)
    (pair : String) (kwargs : Dict) : Eff Response :=
  check_and_format_pair supported_pairs pair (fun p =>
    send net { verb := "GET", endpoint := "products/" ++ p ++ "/ticker",
               params := kwargs })

/-- GDAX.order_book: GET products/(pair)/book, guarded by the
pair-validation decorator. -/
def order_book (supported_pairs : List String) (net : Transport)
    (pair : String) (kwargs : Dict) : Eff Response :=
  check_and_format_pair supported_pairs pair (fun p =>
    send net { verb := "GET", endpoint := "products/" ++ p ++ "/book",
               params := kwargs })

/-- GDAX.trades: GET products/(pair)/trades, guarded by the pair-validation
decorator. -/
def trades (supported_pairs : List String) (net : Transport)
    (pair : String) (kwargs : Dict) : Eff Response :=
  check_and_format_pair supported_pairs pair (fun p =>
    send net { verb := "GET", endpoint := "products/" ++ p ++ "/trades",
               params := kwargs })

/-- GDAX._place_order: build the order payload and POST it to the orders
endpoint with authentication. -/
def _place_order (net : Transport) (pair : String) (price size : Val)
    (side : String) (kwargs : Dict) : Eff Response :=
  let params : Dict := [("product_id", Val.str pair), ("side", Val.str side),
                        ("size", size), ("price", price)]
  let params := dictUpdate params kwargs
  send net { verb := "POST", endpoint := "orders", json := params,
             authenticate := true }

/-- GDAX.ask: a sell order via _place_order, guarded by the pair-validation
decorator. -/
def ask (supported_pairs : List String) (net : Transport) (pair : String)
    (price size : Val) (kwargs : Dict) : Eff Response :=
  check_and_format_pair supported_pairs pair (fun p =>
    _place_order net p price size "sell" kwargs)

/-- GDAX.bid: a buy order via _place_order, guarded by the pair-validation
decorator. -/
def bid (supported_pairs : List String) (net : Transport) (pair : String)
    (price size : Val) (kwargs : Dict) : Eff Response :=
  check_and_format_pair supported_pairs pair (fun p =>
    _place_order net p price size "buy" kwargs)

/-- The DELETE request `GDAX.cancel_order` issues for one order id
(`path = orders/%s`, `json=kwargs`, `authenticate=True`). -/
def cancelReq (kwargs : Dict) (oid : String) : HttpRequest :=
  { verb := "DELETE", endpoint := "orders/" ++ oid, json := kwargs,
    authenticate := true }

/-- The request loop of GDAX.cancel_order: one DELETE per order id, in input
order, collecting the responses in order. -/
def cancelLoop (net : Transport) (kwargs : Dict) :
    List String → List Response × List HttpRequest
  | [] => ([], [])
  | oid :: rest =>
    let r := net (cancelReq kwargs oid)
    let (resps, reqs) := cancelLoop net kwargs rest
    (r :: resps, cancelReq kwargs oid :: reqs)

/-- GDAX.cancel_order: run the DELETE loop over the given ids, then
`resps if len(resps) > 1 else resps[0]` — indexing raises IndexError when
the list of responses is empty. -/
def cancel_order (net : Transport) (order_ids : List String)
    (kwargs : Dict) : Eff CancelResult :=
  let (resps, reqs) := cancelLoop net kwargs order_ids
  if resps.length > 1 then ⟨Except.ok (CancelResult.many resps), reqs⟩
  else
    match resps with
    | [] => ⟨Except.error PyErr.IndexError, reqs⟩
    | r :: _ => ⟨Except.ok (CancelResult.single r), reqs⟩

end GDAX

namespace Lykke

/-- Lykke.__init__ sets the public API base address. -/
def public_api : String := "https://public-api.lykke.com/api/"

/-- Lykke.request: delegates to the superclass.  Modelled from the spec:
`RESTInterface.request` (bitex/interface/rest.py, not under src/) issues one
HTTP request through the transport and returns its response. -/
def request (net : Transport) (verb endpoint : String) (authenticate : Bool)
    (params : Dict) : Eff Response :=
  send net { verb := verb, endpoint := endpoint, params := params,
             authenticate := authenticate }

/-- The GET request Lykke.asset_pairs issues against the AssetPairs
endpoint. -/
def assetPairsReq : HttpRequest := { verb := "GET", endpoint := "AssetPairs" }

/-- Lykke.asset_pairs: GET AssetPairs through Lykke.request. -/
def asset_pairs (net : Transport) : Eff Response :=
  request net "GET" "AssetPairs" false []

/-- Lykke._get_supported_pairs: fetch the asset pairs once, then the list
comprehension `[pair[Id] for pair in resp.json()]`. -/
def _get_supported_pairs (net : Transport) : Eff (List Json) :=
  Eff.andThen (asset_pairs net) (fun resp =>
    match resp.json with
    | Json.arr xs => ⟨listComp (fun x => jsonSubscript x "Id") xs, []⟩
    | _ => ⟨Except.error PyErr.TypeError, []⟩)

/-- Lykke.ticker: GET (public_api)Market/(pair) — note the source passes no
query parameters here — guarded by the pair-validation decorator. -/
def ticker (supported_pairs : List String) (net : Transport)
    (pair : String) (_kwargs : Dict) : Eff Response :=
  check_and_format_pair supported_pairs pair (fun p =>
    send net { verb := "GET", endpoint := public_api ++ "Market/" ++ p })

/-- Lykke.order_book: GET (public_api)OrderBook/(pair) with the kwargs as
query parameters, guarded by the pair-validation decorator. -/
def order_book (supported_pairs : List String) (net : Transport)
    (pair : String) (kwargs : Dict) : Eff Response :=
  check_and_format_pair supported_pairs pair (fun p =>
    send net { verb := "GET", endpoint := public_api ++ "OrderBook/" ++ p,
               params := kwargs })

/-- Lykke.trades: default the mandatory skip and take parameters (when
absent or None) to 0 and 1000, then GET (public_api)Trades/(pair); guarded
by the pair-validation decorator. -/
def trades (supported_pairs : List String) (net : Transport)
    (pair : String) (kwargs : Dict) : Eff Response :=
  check_and_format_pair supported_pairs pair (fun p =>
    let kwargs := if dictGet kwargs "skip" = Val.none then
                    dictSet kwargs "skip" (Val.int 0) else kwargs
    let kwargs := if dictGet kwargs "take" = Val.none then
                    dictSet kwargs "take" (Val.int 1000) else kwargs
    send net { verb := "GET", endpoint := public_api ++ "Trades/" ++ p,
               params := kwargs })

/-- The request-building code that textually follows the unconditional
raise in Lykke._place_order.  The dead calls pass the formatted path as the
first positional argument of Lykke.request (the verb slot) and omit the
endpoint; we model them charitably as issuing a request to that path — the
unreachability theorem holds regardless of this choice. -/
def place_order_dead_code (net : Transport) (pair : String)
    (price size : Val) (market : Bool) (side : String) (kwargs : Dict) :
    Eff Response :=
  let payload := dictUpdate [("amount", size), ("price", price)] kwargs
  if market then
    send net { verb := "", endpoint := side ++ "/market/" ++ pair ++ "/",
               params := payload, authenticate := true }
  else
    send net { verb := "", endpoint := side ++ "/" ++ pair ++ "/",
               params := payload, authenticate := true }

/-- Lykke._place_order: `raise NotImplementedError` is the first statement;
the payload/request code after it is dead. -/
def _place_order (net : Transport) (pair : String) (price size : Val)
    (side : String) (market : Bool) (kwargs : Dict) : Eff Response :=
  Eff.andThen (pyRaise PyErr.NotImplementedError : Eff Unit) (fun _ =>
    place_order_dead_code net pair price size market side kwargs)

/-- Lykke.ask: a sell order via _place_order, guarded by the
pair-validation decorator. -/
def ask (supported_pairs : List String) (net : Transport) (pair : String)
    (price size : Val) (market : Bool) (kwargs : Dict) : Eff Response :=
  check_and_format_pair supported_pairs pair (fun p =>
    _place_order net p price size "sell" market kwargs)

/-- Lykke.bid: a buy order via _place_order, guarded by the pair-validation
decorator. -/
def bid (supported_pairs : List String) (net : Transport) (pair : String)
    (price size : Val) (market : Bool) (kwargs : Dict) : Eff Response :=
  check_and_format_pair supported_pairs pair (fun p =>
    _place_order net p price size "buy" market kwargs)

/-- The request code that textually follows the unconditional raise in
Lykke.order_status (dead: the call also omits the endpoint argument of
Lykke.request; modelled charitably as issuing a request to the path). -/
def order_status_dead_code (net : Transport) (order_id : String)
    (kwargs : Dict) : Eff Response :=
  let payload := dictUpdate [("id", Val.str order_id)] kwargs
  send net { verb := "", endpoint := "api/order_status/", params := payload,
             authenticate := true }

/-- Lykke.order_status: `raise NotImplementedError` is the first statement;
the payload/request code after it is dead. -/
def order_status (net : Transport) (order_id : String) (kwargs : Dict) :
    Eff Response :=
  Eff.andThen (pyRaise PyErr.NotImplementedError : Eff Unit) (fun _ =>
    order_status_dead_code net order_id kwargs)

/-- The request loop that textually follows the unconditional raise in
Lykke.cancel_order (dead; modelled charitably, one request per id). -/
def cancel_order_dead_loop (net : Transport) (kwargs : Dict) :
    List String → List Response × List HttpRequest
  | [] => ([], [])
  | oid :: rest =>
    let req : HttpRequest := { verb := "", endpoint := "cancel_order/",
                               params := dictSet kwargs "id" (Val.str oid),
                               authenticate := true }
    let r := net req
    let (resps, reqs) := cancel_order_dead_loop net kwargs rest
    (r :: resps, req :: reqs)

/-- The result-collecting code that textually follows the unconditional
raise in Lykke.cancel_order (dead). -/
def cancel_order_dead_code (net : Transport) (order_ids : List String)
    (kwargs : Dict) : Eff CancelResult :=
  let (resps, reqs) := cancel_order_dead_loop net kwargs order_ids
  if resps.length > 1 then ⟨Except.ok (CancelResult.many resps), reqs⟩
  else
    match resps with
    | [] => ⟨Except.error PyErr.IndexError, reqs⟩
    | r :: _ => ⟨Except.ok (CancelResult.single r), reqs⟩

/-- Lykke.cancel_order: `raise NotImplementedError` is the first statement;
the request loop after it is dead. -/
def cancel_order (net : Transport) (order_ids : List String)
    (kwargs : Dict) : Eff CancelResult :=
  Eff.andThen (pyRaise PyErr.NotImplementedError : Eff Unit) (fun _ =>
    cancel_order_dead_code net order_ids kwargs)

end Lykke

/-- Values held in the assembled request kwargs of the REST signing layer:
strings (the url) and dictionaries (headers, query params, body data). -/
inductive KVal where
  | str (s : String)
  | dict (d : Dict)
  deriving Repr, DecidableEq

/-- The request-kwargs dictionary handed to the HTTP client, as an
association list preserving insertion order. -/
abbrev ReqKwargs := List (String × KVal)

/-- Lookup of a key in the request kwargs (`None`-free: absent is none). -/
def kwLookup (d : ReqKwargs) (k : String) : Option KVal :=
  match d.find? (fun p => p.1 == k) with
  | some p => some p.2
  | Option.none => Option.none

/-- Python `d[k] = v` on the request kwargs. -/
def kwSet (d : ReqKwargs) (k : String) (v : KVal) : ReqKwargs :=
  if d.any (fun p => p.1 == k) then
    d.map (fun p => if p.1 == k then (k, v) else p)
  else d ++ [(k, v)]

/-- Python `d.pop(k)` on the request kwargs: the removed value and the
remainder, or a KeyError when the key is absent. -/
def kwPop (d : ReqKwargs) (k : String) : Except PyErr (KVal × ReqKwargs) :=
  match kwLookup d k with
  | some v => Except.ok (v, d.filter (fun p => !(p.1 == k)))
  | Option.none => Except.error (PyErr.KeyError k)

/-- Python subscript `d[k]` on the request kwargs. -/
def kwIndex (d : ReqKwargs) (k : String) : Except PyErr KVal :=
  match kwLookup d k with
  | some v => Except.ok v
  | Option.none => Except.error (PyErr.KeyError k)

/-- Python truthiness of a `Val`: None, the empty string and 0 are falsy. -/
def Val.truthy : Val → Bool
  | Val.none => false
  | Val.str s => !(s == "")
  | Val.int n => !(n == 0)

/-- Python truthiness of a `KVal`: the empty string and the empty dict are
falsy. -/
def KVal.truthy : KVal → Bool
  | KVal.str s => !(s == "")
  | KVal.dict d => !d.isEmpty

/-- Python `a or b` on request-kwarg values. -/
def kvOr (a b : KVal) : KVal := if a.truthy then a else b

/-- Python `x or default` on an optional string argument (None and the
empty string are falsy). -/
def pyOrStr (x : Option String) (default : String) : String :=
  match x with
  | some s => if s == "" then default else s
  | Option.none => default

/-- Credential state of a REST API object after construction: address, API
key and secret (either may be Python None, modelled as `Val.none`). -/
structure RESTAPIState where
  addr : String
  key : Val
  secret : Val
  deriving Repr, DecidableEq

namespace LykkeREST

/-- LykkeREST.__init__: default the address to the HFT API, substitute the
placeholder secret `not applicable` when no (or an empty) secret is given,
and store the credentials. -/
def init (addr key secret : Option String) : RESTAPIState :=
  { addr := pyOrStr addr "https://hft-api.lykke.com/api"
    key := match key with
           | some s => Val.str s
           | Option.none => Val.none
    secret := Val.str (pyOrStr secret "not applicable") }

end LykkeREST

namespace RESTAPI

/-- Modelled from the spec: `RESTAPI.check_auth_requirements`
(bitex/api/REST/api.py, not under src/).  Per the spec, if any private
operation is requested, key and secret must both be present, else the call
fails with a configuration error (IncompleteCredentialsError) before any
network call. -/
def check_auth_requirements (st : RESTAPIState) : Except PyErr Unit :=
  if st.key.truthy && st.secret.truthy then Except.ok ()
  else Except.error PyErr.IncompleteCredentialsError

/-- Modelled from the spec: `RESTAPI.sign_request_kwargs`
(bitex/api/REST/api.py, not under src/): generic request assembly,
producing the request kwargs with the full url, empty default headers, the
body slot (`data`) and — default placement — the caller's parameters in the
query-string slot (`params`). -/
def sign_request_kwargs (st : RESTAPIState) (endpoint : String)
    (params data : Dict) : ReqKwargs :=
  [("url", KVal.str (st.addr ++ "/" ++ endpoint)),
   ("headers", KVal.dict []),
   ("data", KVal.dict data),
   ("params", KVal.dict params)]

end RESTAPI

namespace LykkeREST

/-- LykkeREST.check_auth_requirements: call the superclass check and
re-raise IncompleteCredentialsError unchanged. -/
def check_auth_requirements (st : RESTAPIState) : Except PyErr Unit :=
  match RESTAPI.check_auth_requirements st with
  | Except.error PyErr.IncompleteCredentialsError =>
      Except.error PyErr.IncompleteCredentialsError
  | r => r

/-- LykkeREST.sign_request_kwargs: let the superclass assemble the request
kwargs, overwrite the headers with the key-only `api-key` header, pop the
query-string parameters and move them into the body slot (`data`), keeping
the assembled data only when the popped params are empty. -/
def sign_request_kwargs (st : RESTAPIState) (endpoint : String)
    (params data : Dict) : Except PyErr ReqKwargs := do
  let req_kwargs := RESTAPI.sign_request_kwargs st endpoint params data
  let req_kwargs := kwSet req_kwargs "headers"
    (KVal.dict [("api-key", st.key)])
  let (p, req_kwargs) ← kwPop req_kwargs "params"
  let dval ← kwIndex req_kwargs "data"
  pure (kwSet req_kwargs "data" (kvOr p dval))

/-- Trace of one authenticated query: its outcome, how many Signature
Contexts (signed request kwargs) were constructed and how many network
calls were made. -/
structure QueryTrace where
  result : Except PyErr ReqKwargs
  signature_contexts : Nat
  network_calls : Nat
  deriving Repr

/-- Modelled from the spec: the private-query path of the REST layer (not
under src/).  A request with authentication required first checks the auth
requirements (through LykkeREST.check_auth_requirements), then constructs
the Signature Context via sign_request_kwargs, then performs the network
call. -/
def private_query (st : RESTAPIState) (endpoint : String)
    (params data : Dict) : QueryTrace :=
  match check_auth_requirements st with
  | Except.error e =>
    { result := Except.error e, signature_contexts := 0, network_calls := 0 }
  | Except.ok _ =>
    match sign_request_kwargs st endpoint params data with
    | Except.error e =>
      { result := Except.error e, signature_contexts := 1,
        network_calls := 0 }
    | Except.ok rk =>
      { result := Except.ok rk, signature_contexts := 1, network_calls := 1 }

end LykkeREST

/-- A transport whose every response is a successful null payload (used to
instantiate theorems at concrete inputs). -/
def nullTransport : Transport := fun _ => Response.ok Json.null

/-- A transport on which cancelling order id b fails with an
exchange-reported error while every other request succeeds. -/
def mixedCancelTransport : Transport := fun req =>
  if req.endpoint == "orders/b" then
    Response.exchangeError (Json.str "Order not found")
  else Response.ok Json.null

/-- A transport answering the GDAX products endpoint with a one-element
product array. -/
def gdaxPairsTransport : Transport := fun _ =>
  Response.ok (Json.arr [Json.obj [("id", Json.str "BTC-USD")]])

/-- A transport answering the Lykke AssetPairs endpoint with a one-element
asset-pair array. -/
def lykkePairsTransport : Transport := fun _ =>
  Response.ok (Json.arr [Json.obj [("Id", Json.str "BTCUSD")]])

section Lemmas

/-- Setting a key then reading it back yields the written value. -/
theorem dictGet_dictSet_self (d : Dict) (k : String) (v : Val) :
    dictGet (dictSet d k v) k = v := by
  induction d with
  | nil => simp [dictSet, dictGet]
  | cons p rest ih =>
    by_cases hp : p.1 == k
    · simp [dictSet, hp, dictGet]
    · simp [dictSet, hp, dictGet, ih]
      simpa [dictGet] using ih

/-- Setting one key leaves reads of a different key unchanged. -/
theorem dictGet_dictSet_ne (d : Dict) (k1 k2 : String) (v : Val)
    (h : k2 ≠ k1) : dictGet (dictSet d k1 v) k2 = dictGet d k2 := by
  induction d with
  | nil => simp [dictSet, dictGet, bne_iff_ne, h, Ne.symm h]
  | cons p rest ih =>
    by_cases hp : p.1 == k1
    · have hpk : p.1 = k1 := by simpa using hp
      simp [dictSet, hp, dictGet, hpk, Ne.symm h]
    · by_cases hq : p.1 == k2
      · simp [dictSet, hp, dictGet, hq]
      · simp [dictSet, hp, dictGet, hq]
        simpa [dictGet] using ih

/-- A key just set is contained in the dictionary. -/
theorem dictContains_dictSet_self (d : Dict) (k : String) (v : Val) :
    dictContains (dictSet d k v) k = true := by
  induction d with
  | nil => simp [dictSet, dictContains]
  | cons p rest ih =>
    by_cases hp : p.1 == k
    · simp [dictSet, hp, dictContains]
    · simp [dictSet, hp, dictContains] at ih ⊢
      exact ih

/-- Setting one key does not change containment of a different key. -/
theorem dictContains_dictSet_ne (d : Dict) (k1 k2 : String) (v : Val)
    (h : k2 ≠ k1) : dictContains (dictSet d k1 v) k2 = dictContains d k2 := by
  induction d with
  | nil => simp [dictSet, dictContains, Ne.symm h]
  | cons p rest ih =>
    by_cases hp : p.1 == k1
    · have hpk : p.1 = k1 := by simpa using hp
      simp [dictSet, hp, dictContains, hpk, Ne.symm h]
    · simp [dictSet, hp, dictContains] at ih ⊢
      by_cases hq : p.1 = k2
      · simp [hq]
      · simp [hq, ih]

/-- A key whose lookup is not None is present in the dictionary. -/
theorem dictContains_of_dictGet_ne (d : Dict) (k : String)
    (h : dictGet d k ≠ Val.none) : dictContains d k = true := by
  induction d with
  | nil => simp [dictGet] at h
  | cons p rest ih =>
    by_cases hp : p.1 == k
    · have hpk : p.1 = k := by simpa using hp
      simp [dictContains, hpk]
    · simp [dictGet, hp] at h
      simp [dictContains] at ih ⊢
      exact Or.inr (ih (by simpa [dictGet, hp] using h))

/-- The request loop of GDAX.cancel_order issues exactly one DELETE per
order id, in input order, and collects the responses in the same order. -/
theorem cancelLoop_eq (net : Transport) (kwargs : Dict) :
    ∀ ids : List String,
      GDAX.cancelLoop net kwargs ids =
        (ids.map (fun oid => net (GDAX.cancelReq kwargs oid)),
         ids.map (GDAX.cancelReq kwargs))
  | [] => rfl
  | oid :: rest => by
    simp [GDAX.cancelLoop, cancelLoop_eq net kwargs rest]

/-- Mapping a subscript over a JSON array succeeds elementwise: if every
element yields its field, the comprehension yields the list of fields. -/
theorem listComp_jsonSubscript_ok (k : String) (f : Json → Json) :
    ∀ xs : List Json, (∀ x ∈ xs, jsonSubscript x k = Except.ok (f x)) →
      listComp (fun x => jsonSubscript x k) xs = Except.ok (xs.map f)
  | [], _ => rfl
  | x :: rest, h => by
    have hx := h x (by simp)
    have hrest := listComp_jsonSubscript_ok k f rest
      (fun y hy => h y (by simp [hy]))
    simp [listComp, hx, hrest]

/-- Shape of GDAX.cancel_order on a single order id: the one response,
unwrapped, and the one DELETE request. -/
theorem cancel_order_eq_single (net : Transport) (kwargs : Dict)
    (oid : String) :
    GDAX.cancel_order net [oid] kwargs =
      ⟨Except.ok (CancelResult.single (net (GDAX.cancelReq kwargs oid))),
       [GDAX.cancelReq kwargs oid]⟩ := rfl

/-- Shape of GDAX.cancel_order on two or more order ids: the ordered list
of per-id responses and the ordered list of DELETE requests. -/
theorem cancel_order_eq_many (net : Transport) (kwargs : Dict)
    (ids : List String) (h : 1 < ids.length) :
    GDAX.cancel_order net ids kwargs =
      ⟨Except.ok (CancelResult.many
          (ids.map (fun oid => net (GDAX.cancelReq kwargs oid)))),
       ids.map (GDAX.cancelReq kwargs)⟩ := by
  unfold GDAX.cancel_order
  rw [cancelLoop_eq]
  have hlen : 1 < (ids.map (fun oid => net (GDAX.cancelReq kwargs oid))).length := by
    simpa using h
  simp [hlen]
  intro hle
  omega

end Lemmas

/-- Claim C1: for every pair not in the exchange's fetched set of supported
pairs, each pair-taking public method of the GDAX and Lykke interfaces
(ticker, order_book, trades, ask, bid) fails with UnsupportedPairError and
issues zero network calls: the pair-validation decorator rejects the call
before the request inside the method body is constructed. -/
theorem claim_C1_unsupported_pair_rejected
    (s : List String) (netG netL : Transport) (pair : String)
    (kwargs : Dict) (price size : Val) (market : Bool)
    (h : pair ∉ s) :
    GDAX.ticker s netG pair kwargs = pyRaise PyErr.UnsupportedPairError ∧
    GDAX.order_book s netG pair kwargs = pyRaise PyErr.UnsupportedPairError ∧
    GDAX.trades s netG pair kwargs = pyRaise PyErr.UnsupportedPairError ∧
    GDAX.ask s netG pair price size kwargs = pyRaise PyErr.UnsupportedPairError ∧
    GDAX.bid s netG pair price size kwargs = pyRaise PyErr.UnsupportedPairError ∧
    Lykke.ticker s netL pair kwargs = pyRaise PyErr.UnsupportedPairError ∧
    Lykke.order_book s netL pair kwargs = pyRaise PyErr.UnsupportedPairError ∧
    Lykke.trades s netL pair kwargs = pyRaise PyErr.UnsupportedPairError ∧
    Lykke.ask s netL pair price size market kwargs = pyRaise PyErr.UnsupportedPairError ∧
    Lykke.bid s netL pair price size market kwargs = pyRaise PyErr.UnsupportedPairError := by
  refine ⟨?_, ?_, ?_, ?_, ?_, ?_, ?_, ?_, ?_, ?_⟩ <;>
    simp [GDAX.ticker, GDAX.order_book, GDAX.trades, GDAX.ask, GDAX.bid,
          Lykke.ticker, Lykke.order_book, Lykke.trades, Lykke.ask, Lykke.bid,
          check_and_format_pair, h]

/-- Witness for C1: the pair FOO-BAR is not among the supported pairs, and
every pair-taking method rejects it without issuing a request. -/
theorem claim_C1_witness :
    GDAX.ticker ["BTC-USD"] nullTransport "FOO-BAR" [] = pyRaise PyErr.UnsupportedPairError ∧
    GDAX.order_book ["BTC-USD"] nullTransport "FOO-BAR" [] = pyRaise PyErr.UnsupportedPairError ∧
    GDAX.trades ["BTC-USD"] nullTransport "FOO-BAR" [] = pyRaise PyErr.UnsupportedPairError ∧
    GDAX.ask ["BTC-USD"] nullTransport "FOO-BAR" (Val.str "1") (Val.str "2") [] = pyRaise PyErr.UnsupportedPairError ∧
    GDAX.bid ["BTC-USD"] nullTransport "FOO-BAR" (Val.str "1") (Val.str "2") [] = pyRaise PyErr.UnsupportedPairError ∧
    Lykke.ticker ["BTC-USD"] nullTransport "FOO-BAR" [] = pyRaise PyErr.UnsupportedPairError ∧
    Lykke.order_book ["BTC-USD"] nullTransport "FOO-BAR" [] = pyRaise PyErr.UnsupportedPairError ∧
    Lykke.trades ["BTC-USD"] nullTransport "FOO-BAR" [] = pyRaise PyErr.UnsupportedPairError ∧
    Lykke.ask ["BTC-USD"] nullTransport "FOO-BAR" (Val.str "1") (Val.str "2") false [] = pyRaise PyErr.UnsupportedPairError ∧
    Lykke.bid ["BTC-USD"] nullTransport "FOO-BAR" (Val.str "1") (Val.str "2") false [] = pyRaise PyErr.UnsupportedPairError :=
  claim_C1_unsupported_pair_rejected ["BTC-USD"] nullTransport nullTransport
    "FOO-BAR" [] (Val.str "1") (Val.str "2") false (by decide)

/-- Claim C2: GDAX.cancel_order issues exactly one DELETE request per order
id, in input order; with more than one id it returns the ordered list of
per-id results, with exactly one id it returns the single result
unwrapped. -/
theorem claim_C2_cancel_order_per_id (net : Transport)
    (order_ids : List String) (kwargs : Dict) (h : order_ids ≠ []) :
    (GDAX.cancel_order net order_ids kwargs).requests =
      order_ids.map (GDAX.cancelReq kwargs) ∧
    (∀ r ∈ (GDAX.cancel_order net order_ids kwargs).requests,
      r.verb = "DELETE") ∧
    (1 < order_ids.length →
      (GDAX.cancel_order net order_ids kwargs).result =
        Except.ok (CancelResult.many
          (order_ids.map (fun oid => net (GDAX.cancelReq kwargs oid))))) ∧
    (order_ids.length = 1 → ∃ oid, order_ids = [oid] ∧
      (GDAX.cancel_order net order_ids kwargs).result =
        Except.ok (CancelResult.single (net (GDAX.cancelReq kwargs oid)))) := by
  rcases order_ids with _ | ⟨a, rest⟩
  · exact absurd rfl h
  · rcases rest with _ | ⟨b, rest2⟩
    · rw [cancel_order_eq_single]
      refine ⟨rfl, ?_, ?_, ?_⟩
      · intro r hr
        simp at hr
        subst hr
        rfl
      · intro hlen
        exact absurd hlen (by simp)
      · intro _
        exact ⟨a, rfl, rfl⟩
    · have hlen : 1 < (a :: b :: rest2).length := by simp
      rw [cancel_order_eq_many net kwargs _ hlen]
      refine ⟨rfl, ?_, fun _ => rfl, ?_⟩
      · intro r hr
        rcases List.mem_map.mp hr with ⟨oid, _, rfl⟩
        rfl
      · intro h1
        simp at h1

/-- Witness for C2: cancelling two concrete order ids issues the two DELETE
requests in order and returns the two results as an ordered list. -/
theorem claim_C2_witness :
    (GDAX.cancel_order nullTransport ["a", "b"] []).requests =
      ["a", "b"].map (GDAX.cancelReq []) ∧
    (∀ r ∈ (GDAX.cancel_order nullTransport ["a", "b"] []).requests,
      r.verb = "DELETE") ∧
    (1 < (["a", "b"] : List String).length →
      (GDAX.cancel_order nullTransport ["a", "b"] []).result =
        Except.ok (CancelResult.many
          (["a", "b"].map (fun oid => nullTransport (GDAX.cancelReq [] oid))))) ∧
    ((["a", "b"] : List String).length = 1 → ∃ oid, ["a", "b"] = [oid] ∧
      (GDAX.cancel_order nullTransport ["a", "b"] []).result =
        Except.ok (CancelResult.single (nullTransport (GDAX.cancelReq [] oid)))) :=
  claim_C2_cancel_order_per_id nullTransport ["a", "b"] [] (by decide)

/-- Claim C3: with multiple order ids, GDAX.cancel_order attempts every id
even when some cancellation fails with an exchange-reported error, and
returns the full ordered sequence of per-id results (successes and errors
mixed) instead of raising and aborting the batch. -/
theorem claim_C3_cancel_order_partial_failure (net : Transport)
    (order_ids : List String) (kwargs : Dict) (h : 1 < order_ids.length) :
    GDAX.cancel_order net order_ids kwargs =
      ⟨Except.ok (CancelResult.many
          (order_ids.map (fun oid => net (GDAX.cancelReq kwargs oid)))),
       order_ids.map (GDAX.cancelReq kwargs)⟩ :=
  cancel_order_eq_many net kwargs order_ids h

/-- Witness for C3: cancelling three ids of which the second fails with an
exchange-reported error yields the ordered 3-element sequence
[success, ExchangeError, success] and all three DELETE requests. -/
theorem claim_C3_witness :
    GDAX.cancel_order mixedCancelTransport ["a", "b", "c"] [] =
      ⟨Except.ok (CancelResult.many
          [Response.ok Json.null,
           Response.exchangeError (Json.str "Order not found"),
           Response.ok Json.null]),
       [GDAX.cancelReq [] "a", GDAX.cancelReq [] "b", GDAX.cancelReq [] "c"]⟩ :=
  claim_C3_cancel_order_partial_failure mixedCancelTransport ["a", "b", "c"]
    [] (by decide)

/-- Claim C4: Lykke's order-placement, order-status and cancel-order
operations unconditionally raise NotImplementedError before issuing any
request — the request-building code after the raise never runs — and hence
Lykke.ask and Lykke.bid on supported pairs raise NotImplementedError with
zero network calls as well. -/
theorem claim_C4_lykke_stubs_unimplemented
    (s : List String) (net : Transport) (pair : String) (price size : Val)
    (side : String) (market : Bool) (kwargs : Dict) (order_id : String)
    (order_ids : List String) (h : pair ∈ s) :
    Lykke._place_order net pair price size side market kwargs =
      pyRaise PyErr.NotImplementedError ∧
    Lykke.ask s net pair price size market kwargs =
      pyRaise PyErr.NotImplementedError ∧
    Lykke.bid s net pair price size market kwargs =
      pyRaise PyErr.NotImplementedError ∧
    Lykke.order_status net order_id kwargs =
      pyRaise PyErr.NotImplementedError ∧
    Lykke.cancel_order net order_ids kwargs =
      pyRaise PyErr.NotImplementedError := by
  refine ⟨rfl, ?_, ?_, rfl, rfl⟩ <;>
    simp [Lykke.ask, Lykke.bid, Lykke._place_order, check_and_format_pair,
          h, Eff.andThen, pyRaise]

/-- Witness for C4 at a concrete supported pair and concrete arguments. -/
theorem claim_C4_witness :
    Lykke._place_order nullTransport "BTCUSD" (Val.str "1") (Val.str "2")
      "sell" false [] = pyRaise PyErr.NotImplementedError ∧
    Lykke.ask ["BTCUSD"] nullTransport "BTCUSD" (Val.str "1") (Val.str "2")
      false [] = pyRaise PyErr.NotImplementedError ∧
    Lykke.bid ["BTCUSD"] nullTransport "BTCUSD" (Val.str "1") (Val.str "2")
      false [] = pyRaise PyErr.NotImplementedError ∧
    Lykke.order_status nullTransport "oid1" [] =
      pyRaise PyErr.NotImplementedError ∧
    Lykke.cancel_order nullTransport ["oid1", "oid2"] [] =
      pyRaise PyErr.NotImplementedError :=
  claim_C4_lykke_stubs_unimplemented ["BTCUSD"] nullTransport "BTCUSD"
    (Val.str "1") (Val.str "2") "sell" false [] "oid1" ["oid1", "oid2"]
    (by decide)

/-- Closed form of LykkeREST.sign_request_kwargs: the url from the generic
assembly, the key-only headers, and the parameters moved into the data
slot (with the assembled data kept when the params are empty). -/
theorem lykke_sign_request_kwargs_eq (st : RESTAPIState) (endpoint : String)
    (params data : Dict) :
    LykkeREST.sign_request_kwargs st endpoint params data =
      Except.ok [("url", KVal.str (st.addr ++ "/" ++ endpoint)),
                 ("headers", KVal.dict [("api-key", st.key)]),
                 ("data", kvOr (KVal.dict params) (KVal.dict data))] := rfl

/-- Claim C5: the Lykke signing strategy is key-only with a placeholder
secret: construction without a secret stores the placeholder string, the
signed request kwargs authenticate solely through the api-key header, and
the secret never influences the signed kwargs. -/
theorem claim_C5_lykke_key_only_signing
    (addr key : Option String) (st st1 st2 : RESTAPIState)
    (endpoint : String) (params data : Dict)
    (haddr : st1.addr = st2.addr) (hkey : st1.key = st2.key) :
    (LykkeREST.init addr key Option.none).secret = Val.str "not applicable" ∧
    (∃ rk, LykkeREST.sign_request_kwargs st endpoint params data =
        Except.ok rk ∧
      kwLookup rk "headers" = some (KVal.dict [("api-key", st.key)])) ∧
    LykkeREST.sign_request_kwargs st1 endpoint params data =
      LykkeREST.sign_request_kwargs st2 endpoint params data := by
  refine ⟨rfl, ⟨_, lykke_sign_request_kwargs_eq st endpoint params data, rfl⟩, ?_⟩
  rw [lykke_sign_request_kwargs_eq, lykke_sign_request_kwargs_eq, haddr, hkey]

/-- Witness for C5 at concrete credentials: two states differing only in
their secret produce identical signed request kwargs. -/
theorem claim_C5_witness :
    (LykkeREST.init Option.none (some "mykey") Option.none).secret =
      Val.str "not applicable" ∧
    (∃ rk, LykkeREST.sign_request_kwargs
        ⟨"https://hft-api.lykke.com/api", Val.str "mykey", Val.str "s1"⟩
        "Wallets" [("x", Val.int 1)] [] = Except.ok rk ∧
      kwLookup rk "headers" =
        some (KVal.dict [("api-key", Val.str "mykey")])) ∧
    LykkeREST.sign_request_kwargs
        ⟨"https://hft-api.lykke.com/api", Val.str "mykey", Val.str "s1"⟩
        "Wallets" [("x", Val.int 1)] [] =
      LykkeREST.sign_request_kwargs
        ⟨"https://hft-api.lykke.com/api", Val.str "mykey", Val.str "s2"⟩
        "Wallets" [("x", Val.int 1)] [] :=
  claim_C5_lykke_key_only_signing Option.none (some "mykey")
    ⟨"https://hft-api.lykke.com/api", Val.str "mykey", Val.str "s1"⟩
    ⟨"https://hft-api.lykke.com/api", Val.str "mykey", Val.str "s1"⟩
    ⟨"https://hft-api.lykke.com/api", Val.str "mykey", Val.str "s2"⟩
    "Wallets" [("x", Val.int 1)] [] rfl rfl

/-- Claim C6: for every endpoint and parameter set the signed request
kwargs returned by LykkeREST.sign_request_kwargs contain no params entry:
the parameters are relocated into the data slot, the assembled data being
kept only when the removed params value is empty. -/
theorem claim_C6_params_relocated_to_data (st : RESTAPIState)
    (endpoint : String) (params data : Dict) :
    ∃ rk, LykkeREST.sign_request_kwargs st endpoint params data =
        Except.ok rk ∧
      kwLookup rk "params" = Option.none ∧
      kwIndex rk "data" =
        Except.ok (if params.isEmpty then KVal.dict data
                   else KVal.dict params) := by
  refine ⟨_, lykke_sign_request_kwargs_eq st endpoint params data, rfl, ?_⟩
  show Except.ok (kvOr (KVal.dict params) (KVal.dict data)) = _
  cases params <;> simp [kvOr, KVal.truthy]

/-- Claim C7: an authenticated request made with an empty secret fails with
the configuration error IncompleteCredentialsError before any Signature
Context is constructed and before any network call; the failure propagates
through LykkeREST.check_auth_requirements. -/
theorem claim_C7_empty_secret_configuration_error (st : RESTAPIState)
    (endpoint : String) (params data : Dict) (h : st.secret = Val.str "") :
    LykkeREST.private_query st endpoint params data =
      { result := Except.error PyErr.IncompleteCredentialsError,
        signature_contexts := 0, network_calls := 0 } := by
  unfold LykkeREST.private_query LykkeREST.check_auth_requirements
    RESTAPI.check_auth_requirements
  simp [h, Val.truthy]

/-- Witness for C7 at a concrete state with an empty secret. -/
theorem claim_C7_witness :
    LykkeREST.private_query
        ⟨"https://hft-api.lykke.com/api", Val.str "mykey", Val.str ""⟩
        "Wallets" [] [] =
      { result := Except.error PyErr.IncompleteCredentialsError,
        signature_contexts := 0, network_calls := 0 } :=
  claim_C7_empty_secret_configuration_error
    ⟨"https://hft-api.lykke.com/api", Val.str "mykey", Val.str ""⟩
    "Wallets" [] [] rfl

/-- Claim C8: each supported-pairs fetch performs one GET against the
exchange's public products/pairs endpoint and extracts the id field (GDAX)
or the Id field (Lykke) of every element of the returned JSON array. -/
theorem claim_C8_supported_pairs_fetch
    (netG netL : Transport) (xsG xsL : List Json) (fG fL : Json → Json)
    (hG : (netG GDAX.productsReq).json = Json.arr xsG)
    (hGf : ∀ x ∈ xsG, jsonSubscript x "id" = Except.ok (fG x))
    (hL : (netL Lykke.assetPairsReq).json = Json.arr xsL)
    (hLf : ∀ x ∈ xsL, jsonSubscript x "Id" = Except.ok (fL x)) :
    GDAX._get_supported_pairs netG =
      ⟨Except.ok (xsG.map fG), [GDAX.productsReq]⟩ ∧
    GDAX.productsReq.verb = "GET" ∧
    GDAX.productsReq.endpoint = "https://api.gdax.com/products" ∧
    Lykke._get_supported_pairs netL =
      ⟨Except.ok (xsL.map fL), [Lykke.assetPairsReq]⟩ ∧
    Lykke.assetPairsReq.verb = "GET" ∧
    Lykke.assetPairsReq.endpoint = "AssetPairs" := by
  refine ⟨?_, rfl, rfl, ?_, rfl, rfl⟩
  · unfold GDAX._get_supported_pairs
    simp [Eff.andThen, send, hG, listComp_jsonSubscript_ok "id" fG xsG hGf]
  · unfold Lykke._get_supported_pairs
    rw [show Lykke.asset_pairs netL = send netL Lykke.assetPairsReq from rfl]
    simp [Eff.andThen, send, hL, listComp_jsonSubscript_ok "Id" fL xsL hLf]

/-- Witness for C8: concrete one-element product and asset-pair arrays are
parsed into the native pair identifiers. -/
theorem claim_C8_witness :
    GDAX._get_supported_pairs gdaxPairsTransport =
      ⟨Except.ok [Json.str "BTC-USD"], [GDAX.productsReq]⟩ ∧
    GDAX.productsReq.verb = "GET" ∧
    GDAX.productsReq.endpoint = "https://api.gdax.com/products" ∧
    Lykke._get_supported_pairs lykkePairsTransport =
      ⟨Except.ok [Json.str "BTCUSD"], [Lykke.assetPairsReq]⟩ ∧
    Lykke.assetPairsReq.verb = "GET" ∧
    Lykke.assetPairsReq.endpoint = "AssetPairs" :=
  claim_C8_supported_pairs_fetch gdaxPairsTransport lykkePairsTransport
    [Json.obj [("id", Json.str "BTC-USD")]]
    [Json.obj [("Id", Json.str "BTCUSD")]]
    (fun _ => Json.str "BTC-USD") (fun _ => Json.str "BTCUSD")
    rfl (by intro x hx; rw [List.mem_singleton] at hx; subst hx; rfl)
    rfl (by intro x hx; rw [List.mem_singleton] at hx; subst hx; rfl)

/-- Claim C9: the query parameters of the request Lykke.trades issues
always contain both skip and take: an absent (or None) skip defaults to 0,
an absent (or None) take defaults to 1000, and caller-supplied non-None
values pass through unchanged. -/
theorem claim_C9_trades_skip_take_defaults
    (s : List String) (net : Transport) (pair : String) (kwargs : Dict)
    (h : pair ∈ s) :
    ∃ req, Lykke.trades s net pair kwargs = ⟨Except.ok (net req), [req]⟩ ∧
      req.verb = "GET" ∧
      req.endpoint = Lykke.public_api ++ "Trades/" ++ pair ∧
      dictContains req.params "skip" = true ∧
      dictContains req.params "take" = true ∧
      dictGet req.params "skip" =
        (if dictGet kwargs "skip" = Val.none then Val.int 0
         else dictGet kwargs "skip") ∧
      dictGet req.params "take" =
        (if dictGet kwargs "take" = Val.none then Val.int 1000
         else dictGet kwargs "take") ∧
      (∀ k, k ≠ "skip" → k ≠ "take" →
        dictGet req.params k = dictGet kwargs k) := by
  simp only [Lykke.trades, check_and_format_pair, if_pos h]
  by_cases hA : dictGet kwargs "skip" = Val.none
  · simp only [if_pos hA]
    by_cases hB : dictGet (dictSet kwargs "skip" (Val.int 0)) "take" = Val.none
    · have hB2 : dictGet kwargs "take" = Val.none := by
        rwa [dictGet_dictSet_ne _ _ _ _ (by decide)] at hB
      simp only [if_pos hB]
      refine ⟨_, rfl, rfl, rfl, ?_, ?_, ?_, ?_, ?_⟩
      · rw [dictContains_dictSet_ne _ _ _ _ (by decide),
            dictContains_dictSet_self]
      · exact dictContains_dictSet_self _ _ _
      · rw [dictGet_dictSet_ne _ _ _ _ (by decide), dictGet_dictSet_self]
      · rw [dictGet_dictSet_self, if_pos hB2]
      · intro k hk1 hk2
        rw [dictGet_dictSet_ne _ _ _ _ hk2, dictGet_dictSet_ne _ _ _ _ hk1]
    · have hB2 : ¬ dictGet kwargs "take" = Val.none := by
        rwa [dictGet_dictSet_ne _ _ _ _ (by decide)] at hB
      simp only [if_neg hB]
      refine ⟨_, rfl, rfl, rfl, ?_, ?_, ?_, ?_, ?_⟩
      · exact dictContains_dictSet_self _ _ _
      · rw [dictContains_dictSet_ne _ _ _ _ (by decide)]
        exact dictContains_of_dictGet_ne _ _ hB2
      · rw [dictGet_dictSet_self]
      · rw [dictGet_dictSet_ne _ _ _ _ (by decide), if_neg hB2]
      · intro k hk1 hk2
        rw [dictGet_dictSet_ne _ _ _ _ hk1]
  · simp only [if_neg hA]
    by_cases hB : dictGet kwargs "take" = Val.none
    · simp only [if_pos hB]
      refine ⟨_, rfl, rfl, rfl, ?_, ?_, ?_, ?_, ?_⟩
      · rw [dictContains_dictSet_ne _ _ _ _ (by decide)]
        exact dictContains_of_dictGet_ne _ _ hA
      · exact dictContains_dictSet_self _ _ _
      · rw [dictGet_dictSet_ne _ _ _ _ (by decide)]
      · rw [dictGet_dictSet_self]
      · intro k hk1 hk2
        rw [dictGet_dictSet_ne _ _ _ _ hk2]
    · simp only [if_neg hB]
      refine ⟨_, rfl, rfl, rfl, ?_, ?_, ?_, ?_, ?_⟩
      · exact dictContains_of_dictGet_ne _ _ hA
      · exact dictContains_of_dictGet_ne _ _ hB
      · rfl
      · rfl
      · intro _ _ _
        rfl

/-- Witness for C9: a call supplying skip but omitting take issues one
request whose params keep the caller's skip value and default take to
1000. -/
theorem claim_C9_witness :
    ∃ req, Lykke.trades ["BTCUSD"] nullTransport "BTCUSD"
        [("skip", Val.int 5)] = ⟨Except.ok (nullTransport req), [req]⟩ ∧
      req.verb = "GET" ∧
      req.endpoint = Lykke.public_api ++ "Trades/" ++ "BTCUSD" ∧
      dictContains req.params "skip" = true ∧
      dictContains req.params "take" = true ∧
      dictGet req.params "skip" =
        (if dictGet [("skip", Val.int 5)] "skip" = Val.none then Val.int 0
         else dictGet [("skip", Val.int 5)] "skip") ∧
      dictGet req.params "take" =
        (if dictGet [("skip", Val.int 5)] "take" = Val.none then Val.int 1000
         else dictGet [("skip", Val.int 5)] "take") ∧
      (∀ k, k ≠ "skip" → k ≠ "take" →
        dictGet req.params k = dictGet [("skip", Val.int 5)] k) :=
  claim_C9_trades_skip_take_defaults ["BTCUSD"] nullTransport "BTCUSD"
    [("skip", Val.int 5)] (by decide)

/-- Claim C10: GDAX.cancel_order invoked with zero order identifiers issues
no request and fails with IndexError (the unwrapping expression indexes the
empty response list), which is not a typed error of the system's taxonomy. -/
theorem claim_C10_cancel_order_empty_raises_index_error
    (net : Transport) (kwargs : Dict) :
    GDAX.cancel_order net [] kwargs = ⟨Except.error PyErr.IndexError, []⟩ ∧
    PyErr.inTaxonomy PyErr.IndexError = false :=
  ⟨rfl, rfl⟩

end Bitex
